import Mathlib

/-!
Shallow embedding of the aifluency record-management API

This development embeds the user/company Flask services
(`src/app/user_routes/user.py`, `src/app/company_routes/company.py`,
`src/app/__init__.py`) over an explicit document-store state, and proves
the specification claims about authentication, referential integrity,
response shaping and error handling.

Documents are association lists of string keys to values; the MongoDB
collaborator is modelled by executable `findOne` / `insertOne` /
`updateOne` / `deleteOne` / `countDocs` functions with exact-match
filters, exclusion projections, `$set` update semantics, and the
immutability of the `_id` field on update.  Python exceptions caught by
a handler's `try/except` are modelled by the corresponding result
branches.  The salted bcrypt hasher is modelled as a deterministic
injective tagging (the claims depend only on hash/check consistency,
never on salt randomness), and HS256 JWT signing is modelled as a
perfect MAC (a signature is a pair of the secret and the payload).
-/

/-- Values stored in documents: strings, integers, BSON object ids
(modelled by a natural-number handle) and datetimes (seconds). -/
inductive Value where
  | str (s : String)
  | num (n : Int)
  | oid (n : Nat)
  | time (t : Nat)
  deriving DecidableEq, Repr

/-- A document: an association list from field names to values, first
occurrence authoritative (Python dicts and BSON documents have unique
keys). -/
abbrev Doc := List (String × Value)

/-- Look up a field of a document (`d[k]` / `d.get(k)` returning `None`
when absent). -/
def dGet (d : Doc) (k : String) : Option Value :=
  (d.find? (fun p => p.1 == k)).map (fun p => p.2)

/-- Python `k in d`. -/
def dHasKey (d : Doc) (k : String) : Bool :=
  d.any (fun p => p.1 == k)

/-- Python `d[k] = v`: replace in place when the key exists, append
otherwise. -/
def dSet (d : Doc) (k : String) (v : Value) : Doc :=
  if dHasKey d k then d.map (fun p => if p.1 == k then (k, v) else p)
  else d ++ [(k, v)]

/-- Python `del d[k]` (on a document known to contain `k`; callers model
the `KeyError` branch separately). -/
def dErase (d : Doc) (k : String) : Doc :=
  d.filter (fun p => p.1 != k)

/-- MongoDB exclusion projection `{k: 0 for k in excl}`: drop the listed
fields, keep everything else. -/
def projectExcl (d : Doc) (excl : List String) : Doc :=
  d.filter (fun p => !(excl.contains p.1))

/-- An exact-match filter: each entry pairs a field name with `some v`
(field must equal `v`) or `none` (the Python value was `None` /
missing; it matches documents lacking the field). -/
abbrev DocFilter := List (String × Option Value)

/-- Whether a document matches an exact-match filter. -/
def matchesFilter (d : Doc) (f : DocFilter) : Bool :=
  f.all (fun p => dGet d p.1 == p.2)

/-- MongoDB `$set`: apply each update field to the document in order. -/
def applySet (d : Doc) (upd : Doc) : Doc :=
  upd.foldl (fun acc p => dSet acc p.1 p.2) d

/-- `collection.find_one(filter)`. -/
def findOne (coll : List Doc) (f : DocFilter) : Option Doc :=
  coll.find? (fun d => matchesFilter d f)

/-- `collection.find_one(filter, projection)` with an exclusion
projection. -/
def findOneProj (coll : List Doc) (f : DocFilter) (excl : List String) :
    Option Doc :=
  (findOne coll f).map (fun d => projectExcl d excl)

/-- `collection.count_documents(filter)`. -/
def countDocs (coll : List Doc) (f : DocFilter) : Nat :=
  (coll.filter (fun d => matchesFilter d f)).length

/-- `collection.insert_one(d)`: the store assigns a fresh `_id` unless
the document carries one, appends the document, and reports the
inserted id. -/
def insertOne (coll : List Doc) (d : Doc) (fresh : Nat) :
    List Doc × Value :=
  let d' := if dHasKey d "_id" then d else ("_id", Value.oid fresh) :: d
  (coll ++ [d'], (dGet d' "_id").getD (Value.oid fresh))

/-- `collection.update_one(filter, {"$set": upd})`: update the first
matching document; `modified_count` is 1 only when the document
actually changed; the store rejects (raises a write error for) any
update that would alter the immutable `_id` field. -/
def updateOne (coll : List Doc) (f : DocFilter) (upd : Doc) :
    Except String (List Doc × Nat) :=
  match coll with
  | [] => Except.ok ([], 0)
  | d :: rest =>
    if matchesFilter d f then
      let d' := applySet d upd
      if dGet d' "_id" == dGet d "_id" then
        Except.ok (d' :: rest, if d' == d then 0 else 1)
      else
        Except.error "the immutable field _id was found to have been altered"
    else
      match updateOne rest f upd with
      | Except.ok (r, n) => Except.ok (d :: r, n)
      | Except.error e => Except.error e

/-- `collection.delete_one(filter)`: remove the first matching document
and report `deleted_count`. -/
def deleteOne (coll : List Doc) (f : DocFilter) : List Doc × Nat :=
  match coll with
  | [] => ([], 0)
  | d :: rest =>
    if matchesFilter d f then (rest, 1)
    else (d :: (deleteOne rest f).1, (deleteOne rest f).2)

/-- Python `str(...)` on a stored value; on object ids this is the hex
rendering of the BSON id (injective on handles). -/
def strOfValue : Value → String
  | Value.str s => s
  | Value.num n => toString n
  | Value.oid n => "ObjectId" ++ toString n
  | Value.time t => "datetime" ++ toString t

/-- The per-document body of the loop `if "_id" in d: d["_id"] = str(d["_id"])`
used by the list endpoints. -/
def stringifyId (d : Doc) : Doc :=
  if dHasKey d "_id" then
    dSet d "_id" (Value.str (strOfValue ((dGet d "_id").getD (Value.oid 0))))
  else d

/-- Model of `bcrypt.generate_password_hash(p).decode('utf-8')`.  The
real hasher salts, so distinct calls differ; no claim depends on the
salt, so it is modelled as a deterministic injective tagging. -/
def bcryptHash (p : String) : String := "bcrypt:" ++ p

/-- Model of `bcrypt.check_password_hash(h, p)` for string arguments;
the library raises on a `None` password, which callers model as their
exception branch. -/
def bcryptCheck (h p : String) : Bool := h == bcryptHash p

/-- Hash the password value the way `create_user` / `update_user` do
(`generate_password_hash` of the request's string). -/
def hashPwValue : Value → Value
  | Value.str p => Value.str (bcryptHash p)
  | v => v

/-- A signed token: payload `{sub, exp}` plus an HS256 signature,
modelled as a perfect MAC (the signature determines the secret and the
payload; forgery is impossible in the model). -/
structure Token where
  sub : String
  exp : Nat
  sig : String × String × Nat
  deriving DecidableEq, Repr

/-- The perfect-MAC signature of a payload under a secret. -/
def macSign (secret : String) (sub : String) (exp : Nat) :
    String × String × Nat := (secret, sub, exp)

/-- The literal secret `jwt.encode` is called with in `login_user`
(src/app/user_routes/user.py line 225). -/
def issueSecret : String := "your_secret_key_here"

/-- The process-wide `JWT_SECRET_KEY` installed in `create_app`
(src/app/__init__.py line 35), used by `flask_jwt_extended` to verify
bearer tokens on guarded routes. -/
def verifySecret : String := "4hSN-iBJTODPf_OpNvi0J2kWEISBGkM1K3qsq6dKbiw"

/-- One day in seconds (`datetime.timedelta(days=1)`). -/
def daySeconds : Nat := 86400

/-- `login_user`'s token issuance: encode `{sub, exp: now + 24h}` and
sign with the hard-coded secret. -/
def issueToken (subj : String) (now : Nat) : Token :=
  { sub := subj, exp := now + daySeconds,
    sig := macSign issueSecret subj (now + daySeconds) }

/-- Token verification outcomes (spec section 4.2). -/
inductive TokenError where
  | invalid
  | expired
  deriving DecidableEq, Repr

/-- Modelled from the spec: JWT HS256 verification as performed by the
excluded `flask_jwt_extended` collaborator — check the signature under
the given secret, then the expiry against the current time; reject with
`invalid` on a bad signature and `expired` past the expiry instant. -/
def verifyToken (secret : String) (tok : Token) (now : Nat) :
    Except TokenError String :=
  if tok.sig == macSign secret tok.sub tok.exp then
    if now < tok.exp then Except.ok tok.sub
    else Except.error TokenError.expired
  else Except.error TokenError.invalid

/-- The whole persistent state: the `user` and `company` collections
plus the store's fresh object-id counter. -/
structure DB where
  user : List Doc
  company : List Doc
  nextId : Nat
  deriving DecidableEq, Repr

/-- Response bodies: a `{"message": ...}` object, a single document, a
document list, or the login payload `{"token": ..., "user": ...}`. -/
inductive RespBody where
  | msg (m : String)
  | doc (d : Doc)
  | docs (ds : List Doc)
  | login (token : Token) (user : Doc)
  deriving DecidableEq, Repr

/-- An HTTP-shaped response: status code and JSON body. -/
structure Resp where
  status : Nat
  body : RespBody
  deriving DecidableEq, Repr

/-- Whether a `password` field occurs anywhere in a response body. -/
def bodyHasPassword : RespBody → Bool
  | RespBody.msg _ => false
  | RespBody.doc d => dHasKey d "password"
  | RespBody.docs ds => ds.any (fun d => dHasKey d "password")
  | RespBody.login _ u => dHasKey u "password"

/-- `GET /users` (user.py `get_all_users`): list every user under the
exclusion projection `{'password': 0}`, then stringify `_id`. -/
def get_all_users (db : DB) : Resp :=
  let users := db.user.map (fun d => projectExcl d ["password"])
  ⟨200, RespBody.docs (users.map stringifyId)⟩

/-- The inserted user document of `create_user`: Python's
`{"dataCreated": data_created, **data}` (request fields override the
stamp on key collision). -/
def createUserBody (now : Nat) (data : Doc) : Doc :=
  applySet [("dataCreated", Value.time now)] data

/-- `POST /users` (user.py `create_user`): reject a duplicate email
with 400; otherwise hash the password when present, stamp the creation
date, insert, re-read by inserted id, stringify `_id`, delete the
password field and return 201.  Any exception inside the `try` —
in particular the `KeyError` from `del created_user["password"]` when
the document has no password, or the `TypeError` when the re-read
returns `None` — lands in the `except` branch: 500
"User creation error" with whatever state the store already holds. -/
def create_user (db : DB) (now : Nat) (data : Doc) : Resp × DB :=
  match findOne db.user [("email", dGet data "email")] with
  | some _ => (⟨400, RespBody.msg "User with the same email already exists"⟩, db)
  | none =>
    let data' :=
      if dHasKey data "password" then
        dSet data "password" (hashPwValue ((dGet data "password").getD (Value.str "")))
      else data
    let ins := insertOne db.user (createUserBody now data') db.nextId
    let db' : DB := { db with user := ins.1, nextId := db.nextId + 1 }
    match findOne db'.user [("_id", some ins.2)] with
    | some created =>
      let created := dSet created "_id"
        (Value.str (strOfValue ((dGet created "_id").getD (Value.oid 0))))
      if dHasKey created "password" then
        (⟨201, RespBody.doc (dErase created "password")⟩, db')
      else
        (⟨500, RespBody.msg "User creation error"⟩, db')
    | none => (⟨500, RespBody.msg "User creation error"⟩, db')

/-- `POST /login` (user.py `login_user`): look the user up by email.
`if user and bcrypt.check_password_hash(user["password"], password)`
short-circuits to 401 when no user matched; with a user present, a
missing stored password (`KeyError`), a missing request password or a
non-string on either side makes the bcrypt call raise, landing in the
`except` branch: 500 "Authentication error".  A clean mismatch is 401;
on success a token is issued for the stringified `_id`, the password is
stripped from the echoed user and the id attached as `id`. -/
def login_user (db : DB) (now : Nat) (data : Doc) : Resp :=
  match findOne db.user [("email", dGet data "email")] with
  | none => ⟨401, RespBody.msg "Invalid credentials"⟩
  | some user =>
    match dGet user "password", dGet data "password" with
    | some (Value.str h), some (Value.str p) =>
      if bcryptCheck h p then
        match dGet user "_id" with
        | some idv =>
          let userIdStr := strOfValue idv
          let token := issueToken userIdStr now
          let user' := dSet (dErase user "password") "id" (Value.str userIdStr)
          ⟨200, RespBody.login token user'⟩
        | none => ⟨500, RespBody.msg "Authentication error"⟩
      else ⟨401, RespBody.msg "Invalid credentials"⟩
    | some (Value.str _), some _ => ⟨500, RespBody.msg "Authentication error"⟩
    | some (Value.str _), none => ⟨500, RespBody.msg "Authentication error"⟩
    | some _, _ => ⟨500, RespBody.msg "Authentication error"⟩
    | none, _ => ⟨500, RespBody.msg "Authentication error"⟩

/-- `GET /users/byToken` (user.py `get_user_profile`): after the
external token guard resolved the subject to an object id, look the
user up by `_id` under the projection `{'_id': 0, 'password': 0}`. -/
def get_user_profile (db : DB) (uid : Nat) : Resp :=
  match findOneProj db.user [("_id", some (Value.oid uid))] ["_id", "password"] with
  | some d => ⟨200, RespBody.doc d⟩
  | none => ⟨404, RespBody.msg "User not found"⟩

/-- `GET /users/<code>` (user.py `get_user_code`): look up by `code`
under the projection `{'_id': 0, 'password': 0}`. -/
def get_user_code (db : DB) (code : String) : Resp :=
  match findOneProj db.user [("code", some (Value.str code))] ["_id", "password"] with
  | some d => ⟨200, RespBody.doc d⟩
  | none => ⟨404, RespBody.msg "User not found"⟩

/-- `DELETE /users/<code>` (user.py `delete_user`). -/
def delete_user (db : DB) (code : String) : Resp × DB :=
  let res := deleteOne db.user [("code", some (Value.str code))]
  if 0 < res.2 then
    (⟨200, RespBody.msg "User deleted successfully"⟩, { db with user := res.1 })
  else (⟨404, RespBody.msg "User not found"⟩, { db with user := res.1 })

/-- `PUT /users/<code>` (user.py `update_user`): 404 when no user has
the code; otherwise hash the password when present and `$set` the
request body as-is.  The comment in the source claims the `_id` field
is removed first, but no removal is performed, so a client-supplied
`_id` reaches the store; a changed `_id` makes the store raise, landing
in the `except` branch: 500 with the interpolated error text. -/
def update_user (db : DB) (code : String) (request_data : Doc) : Resp × DB :=
  match findOne db.user [("code", some (Value.str code))] with
  | none => (⟨404, RespBody.msg "User not found"⟩, db)
  | some _ =>
    let rd :=
      if dHasKey request_data "password" then
        dSet request_data "password"
          (hashPwValue ((dGet request_data "password").getD (Value.str "")))
      else request_data
    match updateOne db.user [("code", some (Value.str code))] rd with
    | Except.ok r =>
      if 0 < r.2 then
        (⟨200, RespBody.msg "User updated successfully"⟩, { db with user := r.1 })
      else
        (⟨200, RespBody.msg "No modifications made"⟩, { db with user := r.1 })
    | Except.error e =>
      (⟨500, RespBody.msg ("Error updating the user: " ++ e)⟩, db)

/-- `GET /companies` (company.py `get_all_companies`): same shape as
`get_all_users`, password defensively projected out. -/
def get_all_companies (db : DB) : Resp :=
  let companies := db.company.map (fun d => projectExcl d ["password"])
  ⟨200, RespBody.docs (companies.map stringifyId)⟩

/-- The inserted company document of `create_company`
(`{"creationDate": creationDate, **data}`). -/
def createCompanyBody (now : Nat) (data : Doc) : Doc :=
  applySet [("creationDate", Value.time now)] data

/-- `POST /companies` (company.py `create_company`): stamp the creation
date, insert, re-read, stringify `_id`, return 201; no duplicate check
and no password deletion.  Exceptions land in the 500
"Company creation error" branch. -/
def create_company (db : DB) (now : Nat) (data : Doc) : Resp × DB :=
  let ins := insertOne db.company (createCompanyBody now data) db.nextId
  let db' : DB := { db with company := ins.1, nextId := db.nextId + 1 }
  match findOne db'.company [("_id", some ins.2)] with
  | some created =>
    let created := dSet created "_id"
      (Value.str (strOfValue ((dGet created "_id").getD (Value.oid 0))))
    (⟨201, RespBody.doc created⟩, db')
  | none => (⟨500, RespBody.msg "Company creation error"⟩, db')

/-- `GET /companies/<code>` (company.py `get_company_code`): look up by
`code` under the projection `{'_id': 0, 'password': 0}`. -/
def get_company_code (db : DB) (code : String) : Resp :=
  match findOneProj db.company [("code", some (Value.str code))] ["_id", "password"] with
  | some d => ⟨200, RespBody.doc d⟩
  | none => ⟨404, RespBody.msg "Company not found"⟩

/-- `DELETE /companies/<code>` (company.py `delete_company`): count the
users whose `code` equals the requested code first; any match yields
400 with no further storage access, otherwise delete the company and
report 200 or 404 by `deleted_count`. -/
def delete_company (db : DB) (code : String) : Resp × DB :=
  let users_count := countDocs db.user [("code", some (Value.str code))]
  if 0 < users_count then
    (⟨400, RespBody.msg "This company cannot be deleted as it has associated users."⟩, db)
  else
    let res := deleteOne db.company [("code", some (Value.str code))]
    if 0 < res.2 then
      (⟨200, RespBody.msg "Company deleted successfully."⟩, { db with company := res.1 })
    else
      (⟨404, RespBody.msg "Company not found."⟩, { db with company := res.1 })

/-- `PUT /companies/<code>` (company.py `update_company`): delete a
client-supplied `_id` from the body (company.py lines 335-336), `$set`
the rest, 200 when `modified_count > 0` and 404 otherwise; storage
exceptions land in the constant 500 branch. -/
def update_company (db : DB) (code : String) (request_data : Doc) : Resp × DB :=
  let rd := dErase request_data "_id"
  match updateOne db.company [("code", some (Value.str code))] rd with
  | Except.ok r =>
    if 0 < r.2 then
      (⟨200, RespBody.msg "Company updated successfully."⟩, { db with company := r.1 })
    else
      (⟨404, RespBody.msg "Company not found or no data was modified."⟩,
        { db with company := r.1 })
  | Except.error _ =>
    (⟨500, RespBody.msg "Error updating the company."⟩, db)

/-- The `except` message of `delete_user` (user.py line 436):
`f'Error deleting the user: {str(e)}'`. -/
def delete_user_err_msg (e : String) : String :=
  "Error deleting the user: " ++ e

/-- The `except` message of `update_user` (user.py line 526). -/
def update_user_err_msg (e : String) : String :=
  "Error updating the user: " ++ e

/-- The `except` message of `delete_company` (company.py line 265). -/
def delete_company_err_msg (e : String) : String :=
  "Error deleting the company: " ++ e

/-- The `except` message of `create_user` (user.py line 145): constant,
the exception is only printed. -/
def create_user_err_msg (_e : String) : String := "User creation error"

/-- The `except` message of `login_user` (user.py line 239). -/
def login_err_msg (_e : String) : String := "Authentication error"

/-- The `except` message of `get_user_profile` / `get_user_code`
(user.py lines 310 and 375). -/
def get_user_err_msg (_e : String) : String := "Error getting user profile"

/-- The `except` message of `create_company` (company.py line 126). -/
def create_company_err_msg (_e : String) : String := "Company creation error"

/-- The `except` message of `get_company_code` (company.py line 191). -/
def get_company_err_msg (_e : String) : String := "Error retrieving the company"

/-- The `except` message of `update_company` (company.py line 351). -/
def update_company_err_msg (_e : String) : String := "Error updating the company."

/-- Decidable substring containment, used to state that a message
carries the raw exception text. -/
def containsSub (s sub : String) : Bool :=
  s.data.tails.any (fun t => sub.data.isPrefixOf t)

/-- The `modified_count` that the storage layer reports to
`update_company` (after the handler stripped `_id`). -/
def companyUpdateModCount (db : DB) (code : String) (request_data : Doc) : Nat :=
  match updateOne db.company [("code", some (Value.str code))]
      (dErase request_data "_id") with
  | Except.ok r => r.2
  | Except.error _ => 0

/-- The document `create_user` persists for a password-free request
body: a fresh `_id` plus the stamped request fields. -/
def insertedUserDoc (db : DB) (now : Nat) (data : Doc) : Doc :=
  ("_id", Value.oid db.nextId) :: createUserBody now data

/-- Fixture: a user referencing company code "123" next to that
company (the repo's `test_delete_company_associated_users` shape). -/
def dbAssocUsers : DB :=
  ⟨[[("_id", Value.oid 7), ("email", Value.str "wilox@gmail.com"),
     ("code", Value.str "123")]],
   [[("_id", Value.oid 8), ("name", Value.str "wilox"), ("code", Value.str "123")]], 9⟩

/-- Fixture: company "123" with no users at all. -/
def dbFreeCompany : DB :=
  ⟨[], [[("_id", Value.oid 8), ("name", Value.str "wilox"),
         ("code", Value.str "123")]], 9⟩

/-- Fixture: one stored user with a hashed password, for the login and
update evaluations. -/
def userDocA : Doc :=
  [("_id", Value.oid 7), ("code", Value.str "u1"),
   ("email", Value.str "a@b.com"), ("password", Value.str (bcryptHash "pw"))]

/-- Fixture: the database holding `userDocA` and one company. -/
def dbLogin : DB :=
  ⟨[userDocA],
   [[("_id", Value.oid 8), ("code", Value.str "c1"), ("name", Value.str "wilox")]], 9⟩

/-- Fixture: same store shape for the update-by-code evaluations. -/
def dbUpd : DB :=
  ⟨[[("_id", Value.oid 7), ("code", Value.str "u1"),
     ("email", Value.str "a@b.com"), ("password", Value.str (bcryptHash "pw"))]],
   [[("_id", Value.oid 8), ("code", Value.str "c1"), ("name", Value.str "wilox")]], 9⟩

/-- Fixture: a store with one duplicate-email candidate. -/
def dbDup : DB :=
  ⟨[[("_id", Value.oid 3), ("email", Value.str "test@example.com"),
     ("password", Value.str (bcryptHash "test123"))]], [], 4⟩

/-- Fixture: one company, none matching the code "doesnotexist". -/
def dbC8 : DB :=
  ⟨[], [[("_id", Value.oid 8), ("code", Value.str "123"),
         ("name", Value.str "wilox")]], 9⟩

/-- Fixture: a user with code "ghost" but no company at all. -/
def dbGhost : DB :=
  ⟨[[("_id", Value.oid 7), ("email", Value.str "g@h.i"),
     ("code", Value.str "ghost")]], [], 8⟩

/-- An exclusion projection removes each excluded key. -/
theorem dHasKey_projectExcl (d : Doc) (excl : List String) (k : String)
    (h : excl.contains k = true) :
    dHasKey (projectExcl d excl) k = false := by
  simp only [dHasKey, projectExcl, List.any_filter]
  rw [List.any_eq_false]
  intro p _
  by_cases hk : p.1 = k
  · simp [hk]
    simpa using h
  · simp [hk]

/-- `dSet` at one key leaves the presence of any other key alone. -/
theorem dHasKey_dSet_ne (d : Doc) (k k' : String) (v : Value) (h : k' ≠ k) :
    dHasKey (dSet d k' v) k = dHasKey d k := by
  rw [dSet]
  by_cases hd : dHasKey d k' = true
  · rw [if_pos hd]
    simp only [dHasKey, List.any_map]
    congr 1
    funext p
    by_cases hp : p.1 = k'
    · simp [Function.comp, hp, h]
    · simp [Function.comp, hp]
  · rw [if_neg hd]
    simp [dHasKey, List.any_append, h]

/-- `dSet` makes its key present. -/
theorem dHasKey_dSet_self (d : Doc) (k : String) (v : Value) :
    dHasKey (dSet d k v) k = true := by
  rw [dSet]
  by_cases hd : dHasKey d k = true
  · rw [if_pos hd]
    simp only [dHasKey, List.any_map]
    rw [dHasKey, List.any_eq_true] at hd
    rw [List.any_eq_true]
    obtain ⟨p, hmem, hp⟩ := hd
    refine ⟨p, hmem, ?_⟩
    simp only [Function.comp]
    rw [if_pos hp]
    simp
  · rw [if_neg hd]
    simp [dHasKey, List.any_append]

/-- Replacing the value at one key moves no other key's lookup. -/
theorem find?_map_setEntry (d : Doc) (k k' : String) (v : Value) (h : k' ≠ k) :
    (d.map (fun p => if p.1 == k' then (k', v) else p)).find?
        (fun p => p.1 == k) =
      d.find? (fun p => p.1 == k) := by
  induction d with
  | nil => rfl
  | cons p rest ih =>
    by_cases hp : p.1 = k'
    · have hhead : (if p.1 == k' then (k', v) else p) = (k', v) := by simp [hp]
      rw [List.map_cons, hhead, List.find?_cons, List.find?_cons]
      have h2 : (k' == k) = false := by simp [h]
      have h3 : (p.1 == k) = false := by simp [hp, h]
      rw [h2, h3]
      exact ih
    · have hhead : (if p.1 == k' then (k', v) else p) = p := by simp [hp]
      rw [List.map_cons, hhead, List.find?_cons, List.find?_cons]
      cases hpk : (p.1 == k) with
      | true => rfl
      | false => exact ih

/-- `dSet` at one key leaves any other key's value alone. -/
theorem dGet_dSet_ne (d : Doc) (k k' : String) (v : Value) (h : k' ≠ k) :
    dGet (dSet d k' v) k = dGet d k := by
  rw [dSet]
  by_cases hd : dHasKey d k' = true
  · rw [if_pos hd]
    simp only [dGet]
    rw [find?_map_setEntry d k k' v h]
  · rw [if_neg hd]
    simp only [dGet]
    rw [List.find?_append]
    cases hfind : d.find? (fun p => p.1 == k) with
    | some p => simp
    | none => simp [List.find?_cons, h]

/-- `$set` with an update lacking a key leaves that key's value alone. -/
theorem dGet_applySet_not_hasKey (upd : Doc) (d : Doc) (k : String)
    (h : dHasKey upd k = false) :
    dGet (applySet d upd) k = dGet d k := by
  induction upd generalizing d with
  | nil => rfl
  | cons p rest ih =>
    simp only [dHasKey, List.any_cons, Bool.or_eq_false_iff] at h
    unfold applySet
    simp only [List.foldl_cons]
    have hrec := ih (dSet d p.1 p.2) (by simpa [dHasKey] using h.2)
    unfold applySet at hrec
    rw [hrec, dGet_dSet_ne]
    intro heq
    rw [heq] at h
    simp at h

/-- Key presence after `$set` is the union of both key sets. -/
theorem dHasKey_applySet (upd : Doc) (d : Doc) (k : String) :
    dHasKey (applySet d upd) k = (dHasKey d k || dHasKey upd k) := by
  induction upd generalizing d with
  | nil => simp [applySet, dHasKey]
  | cons p rest ih =>
    unfold applySet
    simp only [List.foldl_cons]
    have hrec := ih (dSet d p.1 p.2)
    unfold applySet at hrec
    rw [hrec]
    by_cases hp : p.1 = k
    · rw [hp, dHasKey_dSet_self]
      simp [dHasKey, List.any_cons, hp]
    · rw [dHasKey_dSet_ne _ _ _ _ hp]
      have hb : (p.1 == k) = false := by simp [hp]
      simp [dHasKey, List.any_cons, hb, Bool.or_assoc]

/-- Erasing a key removes it. -/
theorem dHasKey_dErase_self (d : Doc) (k : String) :
    dHasKey (dErase d k) k = false := by
  simp only [dHasKey, dErase, List.any_filter]
  rw [List.any_eq_false]
  intro p _
  by_cases hk : p.1 = k
  · simp [hk]
  · simp [hk]

/-- The `_id`-stringifying loop of the list endpoints neither adds nor
removes any other field. -/
theorem dHasKey_stringifyId (d : Doc) (k : String) (h : k ≠ "_id") :
    dHasKey (stringifyId d) k = dHasKey d k := by
  unfold stringifyId
  by_cases hd : dHasKey d "_id"
  · simp only [hd, if_true]
    exact dHasKey_dSet_ne d k "_id" _ (Ne.symm h)
  · simp [hd]

/-- An update body without `_id` can never trip the store's immutable
`_id` write error. -/
theorem updateOne_isOk_of_no_id (coll : List Doc) (f : DocFilter) (upd : Doc)
    (h : dHasKey upd "_id" = false) :
    ∃ r, updateOne coll f upd = Except.ok r := by
  induction coll with
  | nil => exact ⟨([], 0), rfl⟩
  | cons d rest ih =>
    unfold updateOne
    by_cases hm : matchesFilter d f
    · simp only [hm, if_true]
      rw [dGet_applySet_not_hasKey upd d "_id" h]
      simp
    · simp only [hm, if_false]
      obtain ⟨r, hr⟩ := ih
      rw [hr]
      exact ⟨(d :: r.1, r.2), rfl⟩

/-- An update whose filter matches nothing reports zero modified rows
and leaves the collection unchanged. -/
theorem updateOne_no_match (coll : List Doc) (f : DocFilter) (upd : Doc)
    (h : coll.all (fun d => !matchesFilter d f) = true) :
    updateOne coll f upd = Except.ok (coll, 0) := by
  induction coll with
  | nil => rfl
  | cons d rest ih =>
    simp only [List.all_cons, Bool.and_eq_true, Bool.not_eq_true'] at h
    unfold updateOne
    rw [h.1]
    simp only [Bool.false_eq_true, if_false]
    rw [ih (by simpa using h.2)]

/-- A delete whose filter matches something reports a positive
`deleted_count`. -/
theorem deleteOne_deletedCount_pos (coll : List Doc) (f : DocFilter)
    (h : coll.any (fun d => matchesFilter d f) = true) :
    0 < (deleteOne coll f).2 := by
  induction coll with
  | nil => simp [List.any_nil] at h
  | cons d rest ih =>
    simp only [List.any_cons, Bool.or_eq_true] at h
    unfold deleteOne
    by_cases hm : matchesFilter d f
    · simp [hm]
    · have hrest : rest.any (fun d => matchesFilter d f) = true := by
        rcases h with h | h
        · exact absurd h hm
        · exact h
      simp only [hm, Bool.false_eq_true, if_false]
      exact ih hrest

/-- Appending a string keeps it as a visible substring of the result. -/
theorem containsSub_append (p e : String) : containsSub (p ++ e) e = true := by
  rw [containsSub, List.any_eq_true]
  refine ⟨e.data, ?_, ?_⟩
  · rw [List.mem_tails, String.data_append]
    exact ⟨p.data, rfl⟩
  · rw [List.isPrefixOf_iff_prefix]

/-- A projection that excludes the password leaves no password in any
successful by-filter read. -/
theorem findOneProj_no_password (coll : List Doc) (f : DocFilter)
    (excl : List String) (h : excl.contains "password" = true) (d : Doc)
    (hd : findOneProj coll f excl = some d) :
    dHasKey d "password" = false := by
  unfold findOneProj at hd
  cases hfind : findOne coll f with
  | none => rw [hfind] at hd; simp at hd
  | some d0 =>
    rw [hfind] at hd
    simp only [Option.map_some'] at hd
    cases hd
    exact dHasKey_projectExcl d0 excl "password" h

/-- C1: the spec states that the token is signed and verified with the
same process-wide secret, so that verifying a freshly issued token
returns its subject before the 24-hour expiry.  In the code the two
secrets differ: `login_user` signs with the literal
"your_secret_key_here" while the guarded routes verify under the
process `JWT_SECRET_KEY`, so a token verified one hour after issuance —
well inside the validity window — is rejected as invalid rather than
resolved to its subject; under the signing secret itself the very same
token does verify to the subject, isolating the secret mismatch as the
cause. -/
theorem C1_token_roundtrip_rejected :
    verifyToken verifySecret (issueToken "ObjectId7" 0) 3600 =
      Except.error TokenError.invalid ∧
    3600 < 0 + daySeconds ∧
    verifyToken issueSecret (issueToken "ObjectId7" 0) 3600 =
      Except.ok "ObjectId7" ∧
    issueSecret ≠ verifySecret := by
  refine ⟨rfl, by decide, rfl, by decide⟩

/-- C2: the spec states that both update services strip a
client-supplied `_id` before persisting.  `update_company` does
(company.py lines 335-336) — the update applies and the persisted `_id`
stays `ObjectId(8)` — but `update_user` does not (its comment at
user.py line 512 claims removal the code never performs), so the same
request against a user is forwarded with `_id` intact, the store
rejects the write on the immutable field, and the handler answers 500
with nothing persisted. -/
theorem C2_update_user_id_not_stripped :
    update_user dbUpd "u1" [("_id", Value.str "evil"), ("name", Value.str "n")] =
      (⟨500, RespBody.msg
        ("Error updating the user: " ++
          "the immutable field _id was found to have been altered")⟩, dbUpd) ∧
    update_company dbUpd "c1" [("_id", Value.str "evil"), ("name", Value.str "n")] =
      (⟨200, RespBody.msg "Company updated successfully."⟩,
       ⟨dbUpd.user,
        [[("_id", Value.oid 8), ("code", Value.str "c1"), ("name", Value.str "n")]],
        9⟩) := by
  refine ⟨?_, ?_⟩ <;> rfl

/-- C3: deleting a company by code returns the 400
associated-users failure and leaves the whole state (in particular the
company collection) untouched whenever at least one user carries that
code, and succeeds with 200 whenever no user carries the code and some
company does. -/
theorem C3_delete_company_guard (db : DB) (code : String) :
    (0 < countDocs db.user [("code", some (Value.str code))] →
      delete_company db code =
        (⟨400, RespBody.msg
          "This company cannot be deleted as it has associated users."⟩, db)) ∧
    (countDocs db.user [("code", some (Value.str code))] = 0 →
      db.company.any
          (fun d => matchesFilter d [("code", some (Value.str code))]) = true →
      (delete_company db code).1 =
        ⟨200, RespBody.msg "Company deleted successfully."⟩) := by
  constructor
  · intro h
    rw [delete_company]
    simp only [h, if_true]
  · intro h0 hex
    rw [delete_company]
    simp only [h0]
    have hpos := deleteOne_deletedCount_pos db.company
      [("code", some (Value.str code))] hex
    simp [hpos]

/-- C3 witness: the repo's own scenario — company "123" with one
associated user is refused with 400 and kept; the same company with no
users deletes with 200. -/
theorem C3_delete_company_guard_witness :
    delete_company dbAssocUsers "123" =
      (⟨400, RespBody.msg
        "This company cannot be deleted as it has associated users."⟩,
       dbAssocUsers) ∧
    (delete_company dbFreeCompany "123").1 =
      ⟨200, RespBody.msg "Company deleted successfully."⟩ :=
  ⟨(C3_delete_company_guard dbAssocUsers "123").1 (by decide),
   (C3_delete_company_guard dbFreeCompany "123").2 (by decide) (by decide)⟩

/-- C4 counterexample: the claim says no failure message ever contains
the raw exception text; the `delete_user` handler interpolates
`str(e)` into its 500 message, so the storage exception text "boom" is
visible verbatim in the response. -/
theorem C4_exception_text_leaked :
    delete_user_err_msg "boom" = "Error deleting the user: boom" ∧
    containsSub (delete_user_err_msg "boom") "boom" = true := by
  refine ⟨rfl, by decide⟩

/-- C4 amended: every failure message is a stable string in the sense
of being independent of the thrown exception for the create, login,
read and company-update handlers, but the delete-user, update-user and
delete-company handlers embed the raw exception text as a substring of
their message. -/
theorem C4_error_message_shapes (e : String) :
    create_user_err_msg e = "User creation error" ∧
    login_err_msg e = "Authentication error" ∧
    get_user_err_msg e = "Error getting user profile" ∧
    create_company_err_msg e = "Company creation error" ∧
    get_company_err_msg e = "Error retrieving the company" ∧
    update_company_err_msg e = "Error updating the company." ∧
    containsSub (delete_user_err_msg e) e = true ∧
    containsSub (update_user_err_msg e) e = true ∧
    containsSub (delete_company_err_msg e) e = true := by
  refine ⟨rfl, rfl, rfl, rfl, rfl, rfl, ?_, ?_, ?_⟩ <;>
    apply containsSub_append

/-- C5: no read endpoint — list users, get user by code, get user by
token, list companies, get company by code — ever returns a `password`
field, whatever the stored documents contain: the list endpoints map
the `{'password': 0}` projection over every document and the single
reads use the `{'_id': 0, 'password': 0}` projection. -/
theorem C5_reads_never_expose_password (db : DB) (codeU codeC : String)
    (uid : Nat) :
    bodyHasPassword (get_all_users db).body = false ∧
    bodyHasPassword (get_user_code db codeU).body = false ∧
    bodyHasPassword (get_user_profile db uid).body = false ∧
    bodyHasPassword (get_all_companies db).body = false ∧
    bodyHasPassword (get_company_code db codeC).body = false := by
  refine ⟨?_, ?_, ?_, ?_, ?_⟩
  · simp only [get_all_users, bodyHasPassword, List.any_map]
    rw [List.any_eq_false]
    intro d _
    simp only [Function.comp]
    rw [dHasKey_stringifyId _ _ (by decide)]
    exact ne_true_of_eq_false (dHasKey_projectExcl _ _ _ (by decide))
  · simp only [get_user_code]
    cases hf : findOneProj db.user [("code", some (Value.str codeU))]
        ["_id", "password"] with
    | some d =>
      simp only [hf, bodyHasPassword]
      exact findOneProj_no_password _ _ _ (by decide) d hf
    | none => simp [hf, bodyHasPassword]
  · simp only [get_user_profile]
    cases hf : findOneProj db.user [("_id", some (Value.oid uid))]
        ["_id", "password"] with
    | some d =>
      simp only [hf, bodyHasPassword]
      exact findOneProj_no_password _ _ _ (by decide) d hf
    | none => simp [hf, bodyHasPassword]
  · simp only [get_all_companies, bodyHasPassword, List.any_map]
    rw [List.any_eq_false]
    intro d _
    simp only [Function.comp]
    rw [dHasKey_stringifyId _ _ (by decide)]
    exact ne_true_of_eq_false (dHasKey_projectExcl _ _ _ (by decide))
  · simp only [get_company_code]
    cases hf : findOneProj db.company [("code", some (Value.str codeC))]
        ["_id", "password"] with
    | some d =>
      simp only [hf, bodyHasPassword]
      exact findOneProj_no_password _ _ _ (by decide) d hf
    | none => simp [hf, bodyHasPassword]

/-- C6: when some stored user already matches the request's email, user
creation answers 400 DuplicateEmail with the state unchanged, so the
number of users carrying that email — in particular "at most one" — is
preserved. -/
theorem C6_duplicate_email_rejected (db : DB) (now : Nat) (data : Doc)
    (h : db.user.any
        (fun u => matchesFilter u [("email", dGet data "email")]) = true) :
    create_user db now data =
      (⟨400, RespBody.msg "User with the same email already exists"⟩, db) ∧
    countDocs (create_user db now data).2.user
        [("email", dGet data "email")] =
      countDocs db.user [("email", dGet data "email")] := by
  have hsome : (findOne db.user [("email", dGet data "email")]).isSome = true := by
    rw [findOne, List.find?_isSome]
    rw [List.any_eq_true] at h
    exact h
  obtain ⟨u, hu⟩ := Option.isSome_iff_exists.mp hsome
  have hmain : create_user db now data =
      (⟨400, RespBody.msg "User with the same email already exists"⟩, db) := by
    rw [create_user, hu]
  exact ⟨hmain, by rw [hmain]⟩

/-- C6 witness: re-posting the stored email "test@example.com" is
refused and the store keeps its single record. -/
theorem C6_duplicate_email_rejected_witness :
    create_user dbDup 1
        [("email", Value.str "test@example.com"),
         ("password", Value.str "test123")] =
      (⟨400, RespBody.msg "User with the same email already exists"⟩, dbDup) :=
  (C6_duplicate_email_rejected dbDup 1
    [("email", Value.str "test@example.com"),
     ("password", Value.str "test123")] (by decide)).1

/-- C7 counterexample: the claim says a request body lacking the
password key yields the 500 AuthenticationError; with no matching user
the Python `user and check(...)` conjunction short-circuits before the
bcrypt call can raise, so a password-less request for an unknown email
is answered 401 InvalidCredentials instead. -/
theorem C7_missing_password_can_be_401 :
    dHasKey [("email", Value.str "a@b.com")] "password" = false ∧
    login_user ⟨[], [], 0⟩ 0 [("email", Value.str "a@b.com")] =
      ⟨401, RespBody.msg "Invalid credentials"⟩ ∧
    login_user ⟨[], [], 0⟩ 0 [("email", Value.str "a@b.com")] ≠
      ⟨500, RespBody.msg "Authentication error"⟩ := by
  refine ⟨rfl, rfl, by decide⟩

/-- C7 amended: an unknown email yields 401 InvalidCredentials
regardless of the password key; a known email with a clean bcrypt
mismatch yields 401; and only a known email with the password key
missing from the body reaches the raising bcrypt call and yields the
distinct 500 AuthenticationError. -/
theorem C7_login_failure_taxonomy (db : DB) (now : Nat) (data : Doc) :
    (findOne db.user [("email", dGet data "email")] = none →
      login_user db now data = ⟨401, RespBody.msg "Invalid credentials"⟩) ∧
    (∀ u hs ps, findOne db.user [("email", dGet data "email")] = some u →
      dGet u "password" = some (Value.str hs) →
      dGet data "password" = some (Value.str ps) →
      bcryptCheck hs ps = false →
      login_user db now data = ⟨401, RespBody.msg "Invalid credentials"⟩) ∧
    (∀ u, findOne db.user [("email", dGet data "email")] = some u →
      dGet data "password" = none →
      login_user db now data = ⟨500, RespBody.msg "Authentication error"⟩) := by
  refine ⟨?_, ?_, ?_⟩
  · intro hnone
    rw [login_user, hnone]
  · intro u hs ps hu hup hdp hchk
    simp only [login_user, hu, hup, hdp, hchk, Bool.false_eq_true, if_false]
  · intro u hu hdp
    simp only [login_user, hu, hdp]
    cases hup : dGet u "password" with
    | none => rfl
    | some v => cases v <;> rfl

/-- C7 witness: the three amended branches at concrete states — empty
store and password-less body gives 401; wrong password against the
stored user gives 401; password-less body against the stored user gives
500. -/
theorem C7_login_failure_taxonomy_witness :
    login_user ⟨[], [], 0⟩ 0 [("email", Value.str "x@y.z")] =
      ⟨401, RespBody.msg "Invalid credentials"⟩ ∧
    login_user dbLogin 0
        [("email", Value.str "a@b.com"), ("password", Value.str "wrong")] =
      ⟨401, RespBody.msg "Invalid credentials"⟩ ∧
    login_user dbLogin 0 [("email", Value.str "a@b.com")] =
      ⟨500, RespBody.msg "Authentication error"⟩ :=
  ⟨(C7_login_failure_taxonomy ⟨[], [], 0⟩ 0
      [("email", Value.str "x@y.z")]).1 (by decide),
   (C7_login_failure_taxonomy dbLogin 0
      [("email", Value.str "a@b.com"), ("password", Value.str "wrong")]).2.1
     userDocA (bcryptHash "pw") "wrong" (by decide) (by decide) (by decide)
     (by decide),
   (C7_login_failure_taxonomy dbLogin 0
      [("email", Value.str "a@b.com")]).2.2 userDocA (by decide) (by decide)⟩

/-- C8: company update answers 404 with the exact message
"Company not found or no data was modified." precisely when the
storage layer reports zero modified rows, and in particular whenever no
company carries the requested code. -/
theorem C8_update_company_404_iff_zero_modified (db : DB) (code : String)
    (data : Doc) :
    ((update_company db code data).1 =
        ⟨404, RespBody.msg "Company not found or no data was modified."⟩ ↔
      companyUpdateModCount db code data = 0) ∧
    (db.company.all
        (fun d => !matchesFilter d [("code", some (Value.str code))]) = true →
      (update_company db code data).1 =
        ⟨404, RespBody.msg "Company not found or no data was modified."⟩) := by
  obtain ⟨r, hr⟩ := updateOne_isOk_of_no_id db.company
    [("code", some (Value.str code))] (dErase data "_id")
    (dHasKey_dErase_self data "_id")
  constructor
  · simp only [update_company, companyUpdateModCount, hr]
    rcases Nat.eq_zero_or_pos r.2 with h0 | hpos
    · simp [h0]
    · have hne : ¬r.2 = 0 := Nat.pos_iff_ne_zero.mp hpos
      simp [hpos, hne]
  · intro hall
    have hnm := updateOne_no_match db.company
      [("code", some (Value.str code))] (dErase data "_id") hall
    simp only [update_company, hnm]
    simp

/-- C8 witness: updating the absent code "doesnotexist" in a store
holding only company "123" answers the exact 404 message of the spec
scenario. -/
theorem C8_update_company_404_witness :
    (update_company dbC8 "doesnotexist"
        [("name", Value.str "Updated Company")]).1 =
      ⟨404, RespBody.msg "Company not found or no data was modified."⟩ :=
  (C8_update_company_404_iff_zero_modified dbC8 "doesnotexist"
    [("name", Value.str "Updated Company")]).2 (by decide)

/-- Key presence distributes over a document cons cell. -/
theorem dHasKey_cons (p : String × Value) (d : Doc) (k : String) :
    dHasKey (p :: d) k = ((p.1 == k) || dHasKey d k) := by
  simp [dHasKey]

/-- C9: a create-user request with a free email and no password field
inserts its document — which therefore has no password — and then the
unconditional `del created_user["password"]` raises `KeyError`, so the
handler answers 500 "User creation error" while the freshly inserted
record stays in the store: the failure response and the persisted
insert coexist. -/
theorem C9_passwordless_create_500_but_persisted (db : DB) (now : Nat)
    (data : Doc)
    (hfree : db.user.all
        (fun u => !matchesFilter u [("email", dGet data "email")]) = true)
    (hnopw : dHasKey data "password" = false)
    (hnoid : dHasKey data "_id" = false)
    (hfresh : db.user.all
        (fun u => !(dGet u "_id" == some (Value.oid db.nextId))) = true) :
    create_user db now data =
      (⟨500, RespBody.msg "User creation error"⟩,
       { db with user := db.user ++ [insertedUserDoc db now data],
                 nextId := db.nextId + 1 }) := by
  have hnone : findOne db.user [("email", dGet data "email")] = none := by
    rw [findOne, List.find?_eq_none]
    intro u hu
    rw [List.all_eq_true] at hfree
    have hm := hfree u hu
    simp only [Bool.not_eq_true'] at hm
    simp [hm]
  have hbodyid : dHasKey (createUserBody now data) "_id" = false := by
    rw [createUserBody, dHasKey_applySet]
    have hb : dHasKey [("dataCreated", Value.time now)] "_id" = false := by
      simp [dHasKey]
    rw [hb, hnoid]
    rfl
  have hbodypw : dHasKey (createUserBody now data) "password" = false := by
    rw [createUserBody, dHasKey_applySet]
    have hb : dHasKey [("dataCreated", Value.time now)] "password" = false := by
      simp [dHasKey]
    rw [hb, hnopw]
    rfl
  have hgid : dGet (insertedUserDoc db now data) "_id" =
      some (Value.oid db.nextId) := by
    rw [insertedUserDoc, dGet, List.find?_cons]
    simp
  have hreread : findOne (db.user ++ [insertedUserDoc db now data])
      [("_id", some (Value.oid db.nextId))] =
      some (insertedUserDoc db now data) := by
    rw [findOne, List.find?_append]
    have h1 : db.user.find?
        (fun d => matchesFilter d [("_id", some (Value.oid db.nextId))]) =
        none := by
      rw [List.find?_eq_none]
      intro u hu
      rw [List.all_eq_true] at hfresh
      have hm := hfresh u hu
      simp only [Bool.not_eq_true'] at hm
      simp [matchesFilter, hm]
    rw [h1]
    simp [List.find?_cons, matchesFilter, hgid]
  have hcreatedpw : dHasKey (insertedUserDoc db now data) "password" = false := by
    rw [insertedUserDoc, dHasKey_cons]
    have hb : (("_id", Value.oid db.nextId).1 == "password") = false := by rfl
    rw [hb, hbodypw]
    rfl
  simp only [create_user, hnone, hnopw, Bool.false_eq_true, if_false]
  simp only [insertOne, hbodyid, Bool.false_eq_true, if_false]
  have hins : (("_id", Value.oid db.nextId) :: createUserBody now data) =
      insertedUserDoc db now data := rfl
  rw [hins, hgid]
  simp only [Option.getD_some]
  rw [hreread]
  simp only []
  rw [dHasKey_dSet_ne _ _ _ _ (by decide : "_id" ≠ "password"), hcreatedpw]
  rfl

/-- C9 witness: the repo's own associated-users test posts
`{"email": "wilox@gmail.com", "code": "123"}` with no password; against
an empty store the handler answers 500 yet the record is persisted. -/
theorem C9_passwordless_create_witness :
    create_user ⟨[], [], 0⟩ 0
        [("email", Value.str "wilox@gmail.com"), ("code", Value.str "123")] =
      (⟨500, RespBody.msg "User creation error"⟩,
       ⟨[[("_id", Value.oid 0), ("dataCreated", Value.time 0),
          ("email", Value.str "wilox@gmail.com"), ("code", Value.str "123")]],
        [], 1⟩) := by
  have h := C9_passwordless_create_500_but_persisted ⟨[], [], 0⟩ 0
    [("email", Value.str "wilox@gmail.com"), ("code", Value.str "123")]
    (by decide) (by decide) (by decide) (by decide)
  rw [h]
  rfl

/-- C10: when at least one user carries the requested code, company
deletion answers 400 AssociatedUsersExist with the state unchanged even
if no company with that code exists at all — the referential guard runs
before any company lookup, so 400 wins over 404. -/
theorem C10_guard_precedes_company_lookup (db : DB) (code : String)
    (hu : 0 < countDocs db.user [("code", some (Value.str code))])
    (_hc : db.company.all
        (fun d => !matchesFilter d [("code", some (Value.str code))]) = true) :
    delete_company db code =
      (⟨400, RespBody.msg
        "This company cannot be deleted as it has associated users."⟩, db) ∧
    (delete_company db code).1.status ≠ 404 := by
  have hmain : delete_company db code =
      (⟨400, RespBody.msg
        "This company cannot be deleted as it has associated users."⟩, db) := by
    rw [delete_company]
    simp only [hu, if_true]
  refine ⟨hmain, ?_⟩
  rw [hmain]
  show (400 : Nat) ≠ 404
  decide

/-- C10 witness: one user with code "ghost" and an empty company
collection — the delete answers 400, not 404. -/
theorem C10_guard_precedes_company_lookup_witness :
    delete_company dbGhost "ghost" =
      (⟨400, RespBody.msg
        "This company cannot be deleted as it has associated users."⟩,
       dbGhost) :=
  (C10_guard_precedes_company_lookup dbGhost "ghost"
    (by decide) (by decide)).1
